import Mathlib

/-!
Verification of the deep-link URL module of app-polo
(src/deep-linking/DeepLinkUtils.js).

The JavaScript source is shallowly embedded below.  Conventions of the
embedding:
 - a JavaScript value that may be `undefined` or `null` becomes an
   `Option`;
 - JavaScript string truthiness (empty string is falsy) is `truthyS`,
   number truthiness (0 and NaN are falsy) is `truthyI` / `truthyT`;
 - `parseInt(s, 10)` is `jsParseInt`, returning `JsNumber.nan` where the
   JavaScript value would be NaN (numbers are unbounded `Int`; the
   double-precision rounding of very large literals is not modelled);
 - `URLSearchParams` is modelled by `parseQueryPairs` + `getParam`
   (split on the ampersand, split each piece at its first equals sign,
   plus-to-space then percent-decoding, first occurrence wins, one
   leading question mark stripped); percent-decoded bytes are kept as
   individual code points, so multi-byte UTF-8 recombination is not
   modelled (all inputs considered here are ASCII);
 - `toLowerCase` / `toUpperCase` are modelled on the ASCII range;
 - `str.split(c)` for a one-character separator is `splitOnCharL`
   (every occurrence splits, empty segments are kept);
 - the registry objects are plain object literals, so the truthiness
   check `!TYPE_TO_ACTIVATION[sig]` sees the prototype chain: a key
   inherited from Object.prototype (such as the one named constructor)
   yields a truthy value; `activationLookupTruthy` models this, while
   `TYPE_TO_ACTIVATION` itself holds only the six own entries;
 - the two injected lookup tables `bandForFrequency` and
   `modeForFrequency`, and the clock read `Date.now()`, are parameters
   of `buildSuggestedQSO`;
 - the source field `_suggestedKey` is spelled `suggestedKey`.
-/

/-- JavaScript number that may be NaN (only the integer-valued case is
needed by this module). -/
inductive JsNumber where
  | nan : JsNumber
  | val : Int → JsNumber
deriving DecidableEq, Repr

/-- Truthiness of an optional JavaScript string: undefined and the empty
string are falsy. -/
def truthyS : Option String → Bool
  | none => false
  | some s => s != ""

/-- Truthiness of an optional JavaScript number: undefined and 0 are
falsy. -/
def truthyI : Option Int → Bool
  | none => false
  | some n => n != 0

/-- Truthiness of an optional JavaScript number that may be NaN:
undefined, NaN and 0 are falsy. -/
def truthyT : Option JsNumber → Bool
  | none => false
  | some JsNumber.nan => false
  | some (JsNumber.val n) => n != 0

/-- The idiom `x || undefined` on an optional string: a falsy value
(absent or empty) becomes `none`. -/
def orUndef (o : Option String) : Option String :=
  if truthyS o then o else none

/-- ASCII lowercasing of one character, the fragment of
`String.prototype.toLowerCase` exercised here. -/
def lowerChar (c : Char) : Char :=
  if 'A' ≤ c ∧ c ≤ 'Z' then Char.ofNat (c.toNat + 32) else c

/-- ASCII uppercasing of one character. -/
def upperChar (c : Char) : Char :=
  if 'a' ≤ c ∧ c ≤ 'z' then Char.ofNat (c.toNat - 32) else c

/-- ASCII model of `toLowerCase`. -/
def strLower (s : String) : String := (s.toList.map lowerChar).asString

/-- ASCII model of `toUpperCase`. -/
def strUpper (s : String) : String := (s.toList.map upperChar).asString

/-- JavaScript `startsWith`, at the level of characters. -/
def strStartsWith (s t : String) : Bool :=
  s.toList.take t.toList.length == t.toList

/-- JavaScript `slice(n)`, at the level of characters. -/
def jsSlice (s : String) (n : Nat) : String := (s.toList.drop n).asString

/-- JavaScript `split(sep)` for a one-character separator, on character
lists: split at every occurrence, keeping empty segments. -/
def splitOnCharL (sep : Char) : List Char → List Char → List (List Char)
  | [], acc => [acc.reverse]
  | c :: rest, acc =>
      if c = sep then acc.reverse :: splitOnCharL sep rest []
      else splitOnCharL sep rest (c :: acc)

/-- JavaScript `split(sep)` on strings. -/
def jsSplit (sep : Char) (s : String) : List String :=
  (splitOnCharL sep s.toList []).map List.asString

/-- Whitespace skipped by `parseInt` (the common ASCII cases). -/
def jsWhitespaceChar (c : Char) : Bool :=
  c = ' ' || c = '\t' || c = '\n' || c = '\r' ||
  c = Char.ofNat 11 || c = Char.ofNat 12

/-- Numeric value of a run of decimal digits. -/
def digitsVal (l : List Char) : Nat :=
  l.foldl (fun a c => 10 * a + (c.toNat - 48)) 0

/-- Model of `parseInt(s, 10)`: skip whitespace, read an optional sign,
then the longest run of decimal digits; NaN when that run is empty. -/
def jsParseInt (s : String) : JsNumber :=
  let cs := s.toList.dropWhile jsWhitespaceChar
  let signAndRest : Int × List Char :=
    match cs with
    | '-' :: rest => (-1, rest)
    | '+' :: rest => (1, rest)
    | _ => (1, cs)
  let digits := signAndRest.2.takeWhile Char.isDigit
  if digits = [] then JsNumber.nan
  else JsNumber.val (signAndRest.1 * (digitsVal digits : Int))

/-- Value of one hexadecimal digit, if the character is one. -/
def hexVal (c : Char) : Option Nat :=
  if '0' ≤ c ∧ c ≤ '9' then some (c.toNat - 48)
  else if 'a' ≤ c ∧ c ≤ 'f' then some (c.toNat - 87)
  else if 'A' ≤ c ∧ c ≤ 'F' then some (c.toNat - 55)
  else none

/-- Percent-decoding as done by `URLSearchParams`: a percent sign
followed by two hexadecimal digits becomes the corresponding byte
(kept as one code point); a malformed escape is left literal. -/
def percentDecodeAux : List Char → List Char
  | [] => []
  | '%' :: h1 :: h2 :: rest =>
      match hexVal h1, hexVal h2 with
      | some a, some b => Char.ofNat (16 * a + b) :: percentDecodeAux rest
      | _, _ => '%' :: percentDecodeAux (h1 :: h2 :: rest)
  | c :: rest => c :: percentDecodeAux rest

/-- Decoding of one form-urlencoded component: plus becomes space, then
percent-decoding. -/
def decodeComponent (s : String) : String :=
  (percentDecodeAux (s.toList.map (fun c => if c = '+' then ' ' else c))).asString

/-- Split of one query piece at its first equals sign; a piece with no
equals sign has the empty value. -/
def splitKeyValue : List Char → List Char × List Char
  | [] => ([], [])
  | '=' :: rest => ([], rest)
  | c :: rest =>
      let kv := splitKeyValue rest
      (c :: kv.1, kv.2)

/-- Model of `new URLSearchParams(qs)`: strip one leading question mark,
split on ampersands, drop empty pieces, split each piece at its first
equals sign and decode both sides. -/
def parseQueryPairs (qs : String) : List (String × String) :=
  let body := if strStartsWith qs "?" then jsSlice qs 1 else qs
  ((jsSplit '&' body).filter (fun p => p ≠ "")).map fun part =>
    let kv := splitKeyValue part.toList
    (decodeComponent kv.1.asString, decodeComponent kv.2.asString)

/-- Model of `params.get(k)`: the first value stored under the key, or
`none` when the key is absent. -/
def getParam (pairs : List (String × String)) (k : String) : Option String :=
  (pairs.find? (fun p => p.1 = k)).map (fun p => p.2)

/-! The module under verification. -/

/-- URL_SCHEME from DeepLinkUtils.js. -/
def URL_SCHEME : String := "com.ham2k.polo://"

/-- TYPE_TO_ACTIVATION from DeepLinkUtils.js: URL sig code to operation
activation type. -/
def TYPE_TO_ACTIVATION (code : String) : Option String :=
  if code = "sota" then some "sotaActivation"
  else if code = "pota" then some "potaActivation"
  else if code = "wwff" then some "wwffActivation"
  else if code = "gma" then some "gmaActivation"
  else if code = "wca" then some "wcaActivation"
  else if code = "zlota" then some "zlotaActivation"
  else none

/-- TYPE_TO_HUNTING from DeepLinkUtils.js: URL sig code to QSO hunting
type. -/
def TYPE_TO_HUNTING (code : String) : Option String :=
  if code = "sota" then some "sota"
  else if code = "pota" then some "pota"
  else if code = "wwff" then some "wwff"
  else if code = "gma" then some "gma"
  else if code = "wca" then some "wca"
  else if code = "zlota" then some "zlota"
  else none

/-- Result record of parseDeepLinkURL. -/
structure ParsedLinkParams where
  myRef : Option String
  mySig : Option String
  theirRef : Option String
  theirSig : Option String
  freq : Option Int
  mode : Option String
  time : Option JsNumber
  myCall : Option String
  theirCall : Option String
deriving DecidableEq, Repr

/-- parseFrequency from DeepLinkUtils.js: undefined for a falsy input
string, otherwise parseInt with the NaN case mapped to undefined. -/
def parseFrequency (freqStr : Option String) : Option Int :=
  match freqStr with
  | none => none
  | some s =>
      if s = "" then none
      else
        match jsParseInt s with
        | JsNumber.nan => none
        | JsNumber.val n => some n

/-- Extraction of the myRef parameter as done in parseDeepLinkURL
(raw value, empty normalised to undefined). -/
def myRefOf (params : List (String × String)) : Option String :=
  orUndef (getParam params "myRef")

/-- Extraction of the mySig parameter (lowercased, empty normalised to
undefined). -/
def mySigOf (params : List (String × String)) : Option String :=
  orUndef ((getParam params "mySig").map strLower)

/-- Extraction of the theirRef parameter. -/
def theirRefOf (params : List (String × String)) : Option String :=
  orUndef (getParam params "theirRef")

/-- Extraction of the theirSig parameter (lowercased). -/
def theirSigOf (params : List (String × String)) : Option String :=
  orUndef ((getParam params "theirSig").map strLower)

/-- Own property names of Object.prototype in standard JavaScript
engines.  The registry objects are plain object literals, so a member
access on them falls back to these inherited entries, every one of
which holds a truthy value (a function, or the prototype object
itself for the accessor spelled with two leading underscores). -/
def objectProtoKeys : List String :=
  ["constructor", "__defineGetter__", "__defineSetter__", "hasOwnProperty",
   "__lookupGetter__", "__lookupSetter__", "isPrototypeOf",
   "propertyIsEnumerable", "toString", "valueOf", "toLocaleString",
   "__proto__"]

/-- Truthiness of the JavaScript member access TYPE_TO_ACTIVATION[s]:
the six own keys hold truthy strings, and any key inherited from
Object.prototype also yields a truthy value through the prototype
chain. -/
def activationLookupTruthy (s : String) : Bool :=
  (TYPE_TO_ACTIVATION s).isSome || s ∈ objectProtoKeys

/-- The check `sig && !TYPE_TO_ACTIVATION[sig]` of parseDeepLinkURL,
with the member access modelled prototype chain included. -/
def sigUnknownB (o : Option String) : Bool :=
  match o with
  | none => false
  | some s => (s != "") && !(activationLookupTruthy s)

/-- The time field expression of parseDeepLinkURL:
`params.get(time) ? parseInt(params.get(time), 10) : undefined`. -/
def jsTimeField (o : Option String) : Option JsNumber :=
  match o with
  | none => none
  | some s => if s ≠ "" then some (jsParseInt s) else none

/-- Body of parseDeepLinkURL after the query string has been isolated:
parameter extraction, the complete-pair check, the two sig checks, and
assembly of the result record. -/
def parseQueryString (qs : String) : Option ParsedLinkParams :=
  let params := parseQueryPairs qs
  if !(truthyS (myRefOf params) && truthyS (mySigOf params)) &&
     !(truthyS (theirRefOf params) && truthyS (theirSigOf params)) then none
  else if sigUnknownB (mySigOf params) then none
  else if sigUnknownB (theirSigOf params) then none
  else some
    { myRef := myRefOf params
      mySig := mySigOf params
      theirRef := theirRefOf params
      theirSig := theirSigOf params
      freq := parseFrequency (getParam params "freq")
      mode := orUndef ((getParam params "mode").map strUpper)
      time := jsTimeField (getParam params "time")
      myCall := orUndef ((getParam params "myCall").map strUpper)
      theirCall := orUndef ((getParam params "theirCall").map strUpper) }

/-- parseDeepLinkURL from DeepLinkUtils.js: scheme check, slice off the
scheme, take the segment between the first and the second question mark
as the query string (destructuring of index 1 of the split), fail on a
missing or empty query string, then parse the parameters. -/
def parseDeepLinkURL (url : String) : Option ParsedLinkParams :=
  if strStartsWith url URL_SCHEME then
    let urlPath := url.toList.drop URL_SCHEME.toList.length
    match (splitOnCharL '?' urlPath []).get? 1 with
    | none => none
    | some qs => if qs = [] then none else parseQueryString qs.asString
  else none

/-- Party record of the suggested QSO (their / our). -/
structure PartyInfo where
  call : Option String
deriving DecidableEq, Repr

/-- One reference entry of the suggested QSO; the type is optional
because an indexing miss in JavaScript yields undefined. -/
structure RefEntry where
  type : Option String
  ref : String
deriving DecidableEq, Repr

/-- Result record of buildSuggestedQSO.  The source field _suggestedKey
is spelled suggestedKey here. -/
structure SuggestedQSO where
  suggestedKey : String
  their : PartyInfo
  our : PartyInfo
  freq : Option Int
  band : Option String
  mode : Option String
  startAtMillis : Option JsNumber
  refs : Option (List RefEntry)
deriving DecidableEq, Repr

/-- Input record of buildSuggestedQSO (the destructured argument). -/
structure BuildParams where
  theirRef : Option String
  theirSig : Option String
  freq : Option Int
  mode : Option String
  time : Option JsNumber
  myCall : Option String
  theirCall : Option String
deriving DecidableEq, Repr

/-- buildSuggestedQSO from DeepLinkUtils.js.  The imported lookup tables
bandForFrequency and modeForFrequency and the clock read of Date.now()
are passed as arguments.  Each conditional assignment of the source is
rendered as the net value of the corresponding field; in particular the
source first derives the mode from the frequency when no mode is given
and then overwrites it with an explicit mode, so the net mode is the
explicit one when truthy and the derived one otherwise. -/
def buildSuggestedQSO (bandForFrequency modeForFrequency : Int → Option String)
    (nowMillis : Int) (p : BuildParams) : SuggestedQSO :=
  { suggestedKey := "deeplink-" ++ toString nowMillis
    their := { call := if truthyS p.theirCall then p.theirCall else none }
    our := { call := if truthyS p.myCall then p.myCall else none }
    freq := if truthyI p.freq then p.freq else none
    band :=
      match p.freq with
      | some f => if f ≠ 0 then bandForFrequency f else none
      | none => none
    mode :=
      if truthyS p.mode then p.mode
      else
        match p.freq with
        | some f => if f ≠ 0 then modeForFrequency f else none
        | none => none
    startAtMillis := if truthyT p.time then p.time else none
    refs :=
      match p.theirRef, p.theirSig with
      | some r, some s =>
          if r ≠ "" ∧ s ≠ "" then some [{ type := TYPE_TO_HUNTING s, ref := r }]
          else none
      | _, _ => none }

/-! Extraction helpers: the value each query parameter takes inside
parseDeepLinkURL, exposed as functions of the whole URL so that claims
can speak about the parameters of a URL directly. -/

/-- The query string parseDeepLinkURL isolates from a URL: present when
the URL carries the scheme and the segment between the first and second
question marks of the remainder is non-empty. -/
def deepLinkQuery (url : String) : Option String :=
  if strStartsWith url URL_SCHEME then
    match (splitOnCharL '?' (url.toList.drop URL_SCHEME.toList.length) []).get? 1 with
    | none => none
    | some qs => if qs = [] then none else some qs.asString
  else none

/-- The raw value of one query parameter of a deep-link URL, before any
normalisation. -/
def rawParam (url : String) (k : String) : Option String :=
  (deepLinkQuery url).bind fun qs => getParam (parseQueryPairs qs) k

/-- The myRef parameter of a URL as parseDeepLinkURL sees it. -/
def extractedMyRef (url : String) : Option String :=
  (deepLinkQuery url).bind fun qs => myRefOf (parseQueryPairs qs)

/-- The mySig parameter of a URL as parseDeepLinkURL sees it
(lowercased, empty normalised to absent). -/
def extractedMySig (url : String) : Option String :=
  (deepLinkQuery url).bind fun qs => mySigOf (parseQueryPairs qs)

/-- The theirRef parameter of a URL as parseDeepLinkURL sees it. -/
def extractedTheirRef (url : String) : Option String :=
  (deepLinkQuery url).bind fun qs => theirRefOf (parseQueryPairs qs)

/-- The theirSig parameter of a URL as parseDeepLinkURL sees it. -/
def extractedTheirSig (url : String) : Option String :=
  (deepLinkQuery url).bind fun qs => theirSigOf (parseQueryPairs qs)

/-- A ref/sig pair of a parse result is complete: both members are
present and non-empty. -/
def completePair (a b : Option String) : Prop :=
  (∃ s, a = some s ∧ s ≠ "") ∧ (∃ t, b = some t ∧ t ≠ "")

/-- Band lookup used by the unit tests of the module (the jest mock of
bandForFrequency); used here to instantiate the injected capability. -/
def testBandForFrequency (freq : Int) : Option String :=
  if 14000000 ≤ freq ∧ freq < 14350000 then some "20m"
  else if 7000000 ≤ freq ∧ freq < 7300000 then some "40m"
  else if 21000000 ≤ freq ∧ freq < 21450000 then some "15m"
  else none

/-- Mode lookup used by the unit tests of the module (the jest mock of
modeForFrequency). -/
def testModeForFrequency (freq : Int) : Option String :=
  if 14000000 ≤ freq ∧ freq < 14100000 then some "CW"
  else if 14100000 ≤ freq ∧ freq < 14350000 then some "SSB"
  else if 7000000 ≤ freq ∧ freq < 7050000 then some "CW"
  else if 7050000 ≤ freq ∧ freq < 7300000 then some "SSB"
  else some "SSB"

/-! Helper lemmas. -/

/-- A truthy optional string is exactly a non-empty present string. -/
theorem truthyS_eq_true_iff (o : Option String) :
    truthyS o = true ↔ ∃ s, o = some s ∧ s ≠ "" := by
  cases o with
  | none => simp [truthyS]
  | some s => simp [truthyS]

/-- The value produced by the or-undefined normalisation. -/
theorem orUndef_eq_some_iff (o : Option String) (s : String) :
    orUndef o = some s ↔ o = some s ∧ s ≠ "" := by
  unfold orUndef
  cases o with
  | none => simp [truthyS]
  | some t =>
      by_cases h : t = ""
      · subst h
        simp [truthyS]
        exact fun h2 => h2.symm
      · simp [truthyS, h]
        intro h2
        exact fun hs => h (h2 ▸ hs)

/-- Truthiness of a normalised value coincides with presence. -/
theorem truthyS_orUndef (o : Option String) :
    truthyS (orUndef o) = (orUndef o).isSome := by
  unfold orUndef
  cases o with
  | none => simp [truthyS]
  | some t =>
      by_cases h : t = ""
      · subst h; simp [truthyS]
      · simp [truthyS, h]

/-- parseDeepLinkURL factors through the isolated query string. -/
theorem parseDeepLinkURL_eq_bind (url : String) :
    parseDeepLinkURL url = (deepLinkQuery url).bind parseQueryString := by
  unfold parseDeepLinkURL deepLinkQuery
  by_cases h : strStartsWith url URL_SCHEME
  · simp only [h, if_true]
    cases hg : (splitOnCharL '?' (url.toList.drop URL_SCHEME.toList.length) []).get? 1 with
    | none => simp
    | some qs =>
        by_cases hq : qs = []
        · simp [hq]
        · simp [hq]
  · simp [h]

/-- Inversion of a successful parameter parse: every field of the
result is the corresponding extraction, at least one pair passed the
completeness check and both sig checks passed. -/
theorem parseQueryString_eq_some (qs : String) (p : ParsedLinkParams)
    (h : parseQueryString qs = some p) :
    p.myRef = myRefOf (parseQueryPairs qs) ∧
    p.mySig = mySigOf (parseQueryPairs qs) ∧
    p.theirRef = theirRefOf (parseQueryPairs qs) ∧
    p.theirSig = theirSigOf (parseQueryPairs qs) ∧
    p.freq = parseFrequency (getParam (parseQueryPairs qs) "freq") ∧
    p.time = jsTimeField (getParam (parseQueryPairs qs) "time") ∧
    ((truthyS (myRefOf (parseQueryPairs qs)) &&
        truthyS (mySigOf (parseQueryPairs qs))) = true ∨
     (truthyS (theirRefOf (parseQueryPairs qs)) &&
        truthyS (theirSigOf (parseQueryPairs qs))) = true) ∧
    sigUnknownB (mySigOf (parseQueryPairs qs)) = false ∧
    sigUnknownB (theirSigOf (parseQueryPairs qs)) = false := by
  simp only [parseQueryString] at h
  split at h
  · exact absurd h (by simp)
  · rename_i hc1
    split at h
    · exact absurd h (by simp)
    · rename_i hc2
      split at h
      · exact absurd h (by simp)
      · rename_i hc3
        have hp := Option.some.inj h
        subst hp
        refine ⟨rfl, rfl, rfl, rfl, rfl, rfl, ?_, ?_, ?_⟩
        · by_cases hm : (truthyS (myRefOf (parseQueryPairs qs)) &&
              truthyS (mySigOf (parseQueryPairs qs))) = true
          · exact Or.inl hm
          · by_cases ht : (truthyS (theirRefOf (parseQueryPairs qs)) &&
                truthyS (theirSigOf (parseQueryPairs qs))) = true
            · exact Or.inr ht
            · rw [Bool.not_eq_true] at hm ht
              exact absurd (by simp [hm, ht]) hc1
        · exact Bool.of_not_eq_true hc2
        · exact Bool.of_not_eq_true hc3

/-- A normalised value that is present is non-empty. -/
theorem orUndef_some_ne (o : Option String) (s : String)
    (h : orUndef o = some s) : s ≠ "" :=
  ((orUndef_eq_some_iff o s).mp h).2

/-- The parameter parse fails when neither pair passes the completeness
check. -/
theorem parseQueryString_none_noPair (qs : String)
    (h : (!(truthyS (myRefOf (parseQueryPairs qs)) &&
            truthyS (mySigOf (parseQueryPairs qs))) &&
          !(truthyS (theirRefOf (parseQueryPairs qs)) &&
            truthyS (theirSigOf (parseQueryPairs qs)))) = true) :
    parseQueryString qs = none := by
  simp only [parseQueryString]
  rw [if_pos h]

/-- The parameter parse fails when the mySig check fires. -/
theorem parseQueryString_none_badMySig (qs : String)
    (h : sigUnknownB (mySigOf (parseQueryPairs qs)) = true) :
    parseQueryString qs = none := by
  simp only [parseQueryString]
  by_cases hc1 : (!(truthyS (myRefOf (parseQueryPairs qs)) &&
        truthyS (mySigOf (parseQueryPairs qs))) &&
      !(truthyS (theirRefOf (parseQueryPairs qs)) &&
        truthyS (theirSigOf (parseQueryPairs qs)))) = true
  · rw [if_pos hc1]
  · rw [if_neg hc1, if_pos h]

/-- The parameter parse fails when the theirSig check fires. -/
theorem parseQueryString_none_badTheirSig (qs : String)
    (h : sigUnknownB (theirSigOf (parseQueryPairs qs)) = true) :
    parseQueryString qs = none := by
  simp only [parseQueryString]
  by_cases hc1 : (!(truthyS (myRefOf (parseQueryPairs qs)) &&
        truthyS (mySigOf (parseQueryPairs qs))) &&
      !(truthyS (theirRefOf (parseQueryPairs qs)) &&
        truthyS (theirSigOf (parseQueryPairs qs)))) = true
  · rw [if_pos hc1]
  · rw [if_neg hc1]
    by_cases hc2 : sigUnknownB (mySigOf (parseQueryPairs qs)) = true
    · rw [if_pos hc2]
    · rw [if_neg hc2, if_pos h]

/-- The six sig codes the registry recognises. -/
def recognizedSigCodes : List String :=
  ["sota", "pota", "wwff", "gma", "wca", "zlota"]

/-! Claim theorems. -/

/-- C2: whenever parseDeepLinkURL returns a result, at least one
candidate ref pair of that result is complete, i.e. myRef and mySig are
both present and non-empty, or theirRef and theirSig are; when neither
pair is complete the parse returns null (this is the contrapositive of
the same statement). -/
theorem parse_result_has_complete_pair (url : String) (p : ParsedLinkParams)
    (h : parseDeepLinkURL url = some p) :
    completePair p.myRef p.mySig ∨ completePair p.theirRef p.theirSig := by
  rw [parseDeepLinkURL_eq_bind, Option.bind_eq_some] at h
  obtain ⟨qs, _, hp⟩ := h
  obtain ⟨h1, h2, h3, h4, _, _, hpair, _, _⟩ := parseQueryString_eq_some qs p hp
  rcases hpair with hm | ht
  · left
    rw [Bool.and_eq_true, truthyS_eq_true_iff, truthyS_eq_true_iff] at hm
    rw [h1, h2]
    exact ⟨hm.1, hm.2⟩
  · right
    rw [Bool.and_eq_true, truthyS_eq_true_iff, truthyS_eq_true_iff] at ht
    rw [h3, h4]
    exact ⟨ht.1, ht.2⟩

/-- C8: parseDeepLinkURL is total on strings and only ever yields a
value or null; in particular the not-our-scheme fault and the
missing-query fault yield null (in the embedding every decoding fault
of the source is a value-level null, so no exception can escape). -/
theorem parse_total_or_null (url : String) :
    (parseDeepLinkURL url = none ∨ ∃ p, parseDeepLinkURL url = some p) ∧
    (strStartsWith url URL_SCHEME = false → parseDeepLinkURL url = none) ∧
    (deepLinkQuery url = none → parseDeepLinkURL url = none) := by
  refine ⟨?_, ?_, ?_⟩
  · cases h : parseDeepLinkURL url with
    | none => exact Or.inl rfl
    | some p => exact Or.inr ⟨p, rfl⟩
  · intro h
    simp [parseDeepLinkURL, h]
  · intro h
    rw [parseDeepLinkURL_eq_bind, h]
    rfl

/-- C10: when an accepted URL carries a time parameter that parseInt
cannot read, the time field of the result is NaN, not the absent
marker, and the parse still succeeds (the NaN guard of parseFrequency
has no counterpart on the time field). -/
theorem parse_time_nan (url : String) (p : ParsedLinkParams) (s : String)
    (h : parseDeepLinkURL url = some p)
    (hs : rawParam url "time" = some s) (hne : s ≠ "")
    (hnan : jsParseInt s = JsNumber.nan) :
    p.time = some JsNumber.nan := by
  rw [parseDeepLinkURL_eq_bind, Option.bind_eq_some] at h
  obtain ⟨qs, hq, hp⟩ := h
  obtain ⟨_, _, _, _, _, htime, _, _, _⟩ := parseQueryString_eq_some qs p hp
  unfold rawParam at hs
  rw [hq] at hs
  simp only [Option.some_bind] at hs
  rw [htime, hs]
  simp [jsTimeField, hne, hnan]

/-- Presence and truthiness coincide for the normalised myRef value. -/
theorem truthyS_myRefOf (P : List (String × String)) :
    truthyS (myRefOf P) = (myRefOf P).isSome := truthyS_orUndef _

/-- Presence and truthiness coincide for the normalised mySig value. -/
theorem truthyS_mySigOf (P : List (String × String)) :
    truthyS (mySigOf P) = (mySigOf P).isSome := truthyS_orUndef _

/-- Presence and truthiness coincide for the normalised theirRef
value. -/
theorem truthyS_theirRefOf (P : List (String × String)) :
    truthyS (theirRefOf P) = (theirRefOf P).isSome := truthyS_orUndef _

/-- Presence and truthiness coincide for the normalised theirSig
value. -/
theorem truthyS_theirSigOf (P : List (String × String)) :
    truthyS (theirSigOf P) = (theirSigOf P).isSome := truthyS_orUndef _

/-- C1: buildSuggestedQSO carries a refs field exactly when both
theirRef and theirSig are present (in the JavaScript sense: non-empty),
and the field then holds exactly one entry whose type is the hunting
tag TYPE_TO_HUNTING of theirSig — not the activation tag — and whose
ref is theirRef unchanged, for every choice of the injected lookup
tables and of the clock value. -/
theorem build_refs_iff_their_pair (bandF modeF : Int → Option String)
    (nowMillis : Int) (p : BuildParams) :
    ((buildSuggestedQSO bandF modeF nowMillis p).refs.isSome =
      (truthyS p.theirRef && truthyS p.theirSig)) ∧
    (∀ r s, p.theirRef = some r → p.theirSig = some s → r ≠ "" → s ≠ "" →
      (buildSuggestedQSO bandF modeF nowMillis p).refs =
        some [{ type := TYPE_TO_HUNTING s, ref := r }]) := by
  constructor
  · cases hr : p.theirRef with
    | none => simp [buildSuggestedQSO, hr, truthyS]
    | some r =>
        cases hs : p.theirSig with
        | none => simp [buildSuggestedQSO, hr, hs, truthyS]
        | some s =>
            by_cases h1 : r = "" <;> by_cases h2 : s = "" <;>
              simp [buildSuggestedQSO, hr, hs, truthyS, h1, h2]
  · intro r s hr hs h1 h2
    simp [buildSuggestedQSO, hr, hs, h1, h2]

/-- C5: an explicit mode in the input of buildSuggestedQSO always ends
up as the mode of the result, whatever freq is and whatever the
frequency-to-mode lookup would return. -/
theorem build_mode_explicit_wins (bandF modeF : Int → Option String)
    (nowMillis : Int) (p : BuildParams) (m : String)
    (h1 : p.mode = some m) (h2 : m ≠ "") :
    (buildSuggestedQSO bandF modeF nowMillis p).mode = some m := by
  have ht : truthyS (some m) = true := by simp [truthyS, h2]
  simp [buildSuggestedQSO, h1, ht]

/-- C6: with a (truthy) freq in the input, buildSuggestedQSO copies the
freq, derives the band via the band lookup at that freq, and, when the
input has no mode, derives the mode via the mode lookup at that
freq. -/
theorem build_freq_sets_band_and_mode (bandF modeF : Int → Option String)
    (nowMillis : Int) (p : BuildParams) (f : Int)
    (h1 : p.freq = some f) (h2 : f ≠ 0) :
    (buildSuggestedQSO bandF modeF nowMillis p).freq = some f ∧
    (buildSuggestedQSO bandF modeF nowMillis p).band = bandF f ∧
    (p.mode = none →
      (buildSuggestedQSO bandF modeF nowMillis p).mode = modeF f) := by
  have ht : truthyI (some f) = true := by simp [truthyI, h2]
  refine ⟨?_, ?_, ?_⟩
  · simp [buildSuggestedQSO, h1, ht]
  · simp [buildSuggestedQSO, h1, h2]
  · intro hm
    simp [buildSuggestedQSO, hm, truthyS, h1, h2]

/-- A candidate ref pair is partially specified: exactly one of its two
members is present (after normalisation). -/
def partialPair (a b : Option String) : Prop :=
  (a.isSome = true ∧ b = none) ∨ (a = none ∧ b.isSome = true)

instance (a b : Option String) : Decidable (partialPair a b) := by
  unfold partialPair
  infer_instance

/-- C4 amended: a partially specified pair makes parseDeepLinkURL
return null only when the other pair is not complete; the failure
condition of the code is the absence of any complete pair, so a URL
with one partial pair and no complete pair parses to null. -/
theorem parse_null_of_partial_pair (url : String)
    (h : (partialPair (extractedMyRef url) (extractedMySig url) ∧
          ¬ ((extractedTheirRef url).isSome = true ∧
             (extractedTheirSig url).isSome = true)) ∨
         (partialPair (extractedTheirRef url) (extractedTheirSig url) ∧
          ¬ ((extractedMyRef url).isSome = true ∧
             (extractedMySig url).isSome = true))) :
    parseDeepLinkURL url = none := by
  cases hq : deepLinkQuery url with
  | none => rw [parseDeepLinkURL_eq_bind, hq]; rfl
  | some qs =>
      have hmr : extractedMyRef url = myRefOf (parseQueryPairs qs) := by
        unfold extractedMyRef; rw [hq]; rfl
      have hms : extractedMySig url = mySigOf (parseQueryPairs qs) := by
        unfold extractedMySig; rw [hq]; rfl
      have htr : extractedTheirRef url = theirRefOf (parseQueryPairs qs) := by
        unfold extractedTheirRef; rw [hq]; rfl
      have hts : extractedTheirSig url = theirSigOf (parseQueryPairs qs) := by
        unfold extractedTheirSig; rw [hq]; rfl
      rw [hmr, hms, htr, hts] at h
      rw [parseDeepLinkURL_eq_bind, hq]
      simp only [Option.some_bind]
      apply parseQueryString_none_noPair
      have hAB : (truthyS (myRefOf (parseQueryPairs qs)) &&
          truthyS (mySigOf (parseQueryPairs qs))) = false := by
        rcases h with ⟨hpp, _⟩ | ⟨_, hnc⟩
        · rcases hpp with ⟨_, hb⟩ | ⟨ha, _⟩
          · rw [hb]; simp [truthyS]
          · rw [ha]; simp [truthyS]
        · rw [truthyS_myRefOf, truthyS_mySigOf]
          by_cases hA : (myRefOf (parseQueryPairs qs)).isSome = true
          · by_cases hB : (mySigOf (parseQueryPairs qs)).isSome = true
            · exact absurd ⟨hA, hB⟩ hnc
            · rw [Bool.not_eq_true] at hB; rw [hB]; simp
          · rw [Bool.not_eq_true] at hA; rw [hA]; simp
      have hCD : (truthyS (theirRefOf (parseQueryPairs qs)) &&
          truthyS (theirSigOf (parseQueryPairs qs))) = false := by
        rcases h with ⟨_, hnc⟩ | ⟨hpp, _⟩
        · rw [truthyS_theirRefOf, truthyS_theirSigOf]
          by_cases hC : (theirRefOf (parseQueryPairs qs)).isSome = true
          · by_cases hD : (theirSigOf (parseQueryPairs qs)).isSome = true
            · exact absurd ⟨hC, hD⟩ hnc
            · rw [Bool.not_eq_true] at hD; rw [hD]; simp
          · rw [Bool.not_eq_true] at hC; rw [hC]; simp
        · rcases hpp with ⟨_, hb⟩ | ⟨ha, _⟩
          · rw [hb]; simp [truthyS]
          · rw [ha]; simp [truthyS]
      simp [hAB, hCD]

/-- C7 amended: the freq field of a parse result follows parseInt
semantics on the raw freq parameter: absent when the parameter is
missing, or empty, or parseInt yields NaN; otherwise the signed value
of the leading digit run, which may be negative and which ignores
trailing non-digit characters; an unparsable freq never makes the
parse itself fail. -/
theorem parse_freq_parseInt_semantics (url : String) (p : ParsedLinkParams)
    (h : parseDeepLinkURL url = some p) :
    (rawParam url "freq" = none → p.freq = none) ∧
    (∀ s, rawParam url "freq" = some s →
      (jsParseInt s = JsNumber.nan → p.freq = none) ∧
      (∀ n, jsParseInt s = JsNumber.val n → p.freq = some n)) := by
  rw [parseDeepLinkURL_eq_bind, Option.bind_eq_some] at h
  obtain ⟨qs, hq, hp⟩ := h
  obtain ⟨_, _, _, _, hfreq, _, _, _, _⟩ := parseQueryString_eq_some qs p hp
  have hraw : rawParam url "freq" = getParam (parseQueryPairs qs) "freq" := by
    unfold rawParam; rw [hq]; rfl
  constructor
  · intro hnone
    rw [hraw] at hnone
    rw [hfreq, hnone]
    rfl
  · intro s hsome
    rw [hraw] at hsome
    rw [hfreq, hsome]
    by_cases hse : s = ""
    · subst hse
      constructor
      · intro _
        simp [parseFrequency]
      · intro n hn
        rw [show jsParseInt "" = JsNumber.nan from rfl] at hn
        exact absurd hn (by simp)
    · constructor
      · intro hnan
        simp [parseFrequency, hse, hnan]
      · intro n hn
        simp [parseFrequency, hse, hn]

/-- C9 amended: after the scheme check parseDeepLinkURL splits the
remainder on question marks and uses the segment between the first and
the second question mark as the query string, discarding whatever
follows a second question mark; a missing question mark, like an empty
segment, makes the parse return null. -/
theorem parse_query_is_second_segment (url : String)
    (h : strStartsWith url URL_SCHEME = true) :
    (∀ a qs rest,
      splitOnCharL '?' (url.toList.drop URL_SCHEME.toList.length) [] =
        a :: qs :: rest →
      parseDeepLinkURL url =
        (if qs = [] then none else parseQueryString qs.asString)) ∧
    (∀ a,
      splitOnCharL '?' (url.toList.drop URL_SCHEME.toList.length) [] = [a] →
      parseDeepLinkURL url = none) := by
  constructor
  · intro a qs rest hsplit
    simp only [parseDeepLinkURL]
    rw [if_pos h, hsplit]
    rfl
  · intro a hsplit
    simp only [parseDeepLinkURL]
    rw [if_pos h, hsplit]
    rfl

/-! Concrete inputs for witnesses and counterexamples. -/

/-- Chase-only URL from the unit tests, with its ref pair complete. -/
def c2WitnessUrl : String := "com.ham2k.polo://qso?theirRef=W6/CT-006&theirSig=sota"

/-- Parse result of c2WitnessUrl. -/
def c2WitnessParams : ParsedLinkParams :=
  { myRef := none, mySig := none, theirRef := some "W6/CT-006",
    theirSig := some "sota", freq := none, mode := none, time := none,
    myCall := none, theirCall := none }

/-- C2 witness: the chase-only URL parses and its their pair is
complete. -/
theorem parse_complete_pair_witness :
    completePair c2WitnessParams.myRef c2WitnessParams.mySig ∨
    completePair c2WitnessParams.theirRef c2WitnessParams.theirSig :=
  parse_result_has_complete_pair c2WitnessUrl c2WitnessParams (by decide)

/-- URL whose mySig is the inherited Object.prototype key named
constructor, outside the six recognised codes. -/
def c3BugUrl : String := "com.ham2k.polo://qso?myRef=A&mySig=constructor"

/-- C3, evaluation at the failing input: the sig named constructor is
not one of the six recognised codes, yet parseDeepLinkURL accepts the
URL and keeps that sig in the result, because the member access on the
registry object literal finds the truthy entry inherited from
Object.prototype instead of returning undefined; the unknown-sig
validation therefore does not fire, contradicting the closed-set rule
of the specification and the intent of the unknown-sig tests of the
module. -/
theorem parse_accepts_inherited_sig :
    ("constructor" ∉ recognizedSigCodes) ∧
    extractedMySig c3BugUrl = some "constructor" ∧
    Option.map ParsedLinkParams.mySig (parseDeepLinkURL c3BugUrl) =
      some (some "constructor") := by decide

/-- URL whose my pair is partial (myRef without mySig) while the their
pair is complete. -/
def c4CexUrl : String := "com.ham2k.polo://qso?myRef=A&theirRef=B&theirSig=sota"

/-- C4 counterexample: a URL with a partially specified my pair on
which parseDeepLinkURL does not return null, because the other pair is
complete; the partial member even survives into the result. -/
theorem parse_partial_pair_counterexample :
    extractedMyRef c4CexUrl = some "A" ∧ extractedMySig c4CexUrl = none ∧
    partialPair (extractedMyRef c4CexUrl) (extractedMySig c4CexUrl) ∧
    parseDeepLinkURL c4CexUrl ≠ none := by decide

/-- Incomplete-pair URL from the spec examples. -/
def c4WitnessUrl : String := "com.ham2k.polo://qso?myRef=W6/CT-006"

/-- C4 witness: a partial my pair with no complete their pair parses to
null. -/
theorem parse_partial_pair_witness : parseDeepLinkURL c4WitnessUrl = none :=
  parse_null_of_partial_pair c4WitnessUrl
    (Or.inl ⟨Or.inl ⟨by decide, by decide⟩, by decide⟩)

/-- Valid URL whose freq parameter carries a minus sign. -/
def c7CexUrlNeg : String := "com.ham2k.polo://qso?theirRef=A&theirSig=sota&freq=-5"

/-- Valid URL whose freq parameter is not an integer numeral. -/
def c7CexUrlFrac : String :=
  "com.ham2k.polo://qso?theirRef=A&theirSig=sota&freq=14.5"

/-- C7 counterexample: freq equal to -5 parses to the negative integer
-5, not a non-negative one, and the non-integer string 14.5 parses to
14 instead of being treated as absent. -/
theorem parse_freq_counterexample :
    rawParam c7CexUrlNeg "freq" = some "-5" ∧
    Option.map ParsedLinkParams.freq (parseDeepLinkURL c7CexUrlNeg) =
      some (some (-5)) ∧
    rawParam c7CexUrlFrac "freq" = some "14.5" ∧
    Option.map ParsedLinkParams.freq (parseDeepLinkURL c7CexUrlFrac) =
      some (some 14) := by decide

/-- Parse result of c7CexUrlNeg. -/
def c7WitnessParams : ParsedLinkParams :=
  { myRef := none, mySig := none, theirRef := some "A", theirSig := some "sota",
    freq := some (-5), mode := none, time := none, myCall := none,
    theirCall := none }

/-- C7 witness: the amended semantics applied at the freq value -5. -/
theorem parse_freq_parseInt_witness : c7WitnessParams.freq = some (-5) :=
  ((parse_freq_parseInt_semantics c7CexUrlNeg c7WitnessParams (by decide)).2
    "-5" (by decide)).2 (-5) (by decide)

/-- URL with a foreign scheme, from the unit tests. -/
def c8WitnessUrl : String := "https://example.com/qso?myRef=TEST&mySig=sota"

/-- C8 witness: a URL outside the scheme yields null. -/
theorem parse_total_witness : parseDeepLinkURL c8WitnessUrl = none :=
  (parse_total_or_null c8WitnessUrl).2.1 (by decide)

/-- Modelled from the spec: the claim describes the query string as
everything after the first question mark of the remainder, further
question marks included; this function computes that reading for
comparison with the code. -/
def afterFirstQM : List Char → Option (List Char)
  | [] => none
  | '?' :: rest => some rest
  | _ :: rest => afterFirstQM rest

/-- URL whose first query value itself contains a question mark. -/
def c9CexUrl : String := "com.ham2k.polo://qso?theirRef=A?x&theirSig=sota"

/-- C9 counterexample: the code returns null on this URL, while parsing
everything after the first question mark as the query string would
succeed — so the code does not treat everything after the first
question mark as the query string. -/
theorem parse_split_counterexample :
    parseDeepLinkURL c9CexUrl = none ∧
    Option.map (fun l => (parseQueryString (List.asString l)).isSome)
      (afterFirstQM (c9CexUrl.toList.drop URL_SCHEME.toList.length)) =
      some true := by decide

/-- URL with trailing content behind a second question mark. -/
def c9WitnessUrl : String := "com.ham2k.polo://qso?theirRef=T&theirSig=sota?junk"

/-- C9 witness: the segment between the first two question marks is the
query string actually parsed; the junk after the second one is
discarded. -/
theorem parse_second_segment_witness :
    parseDeepLinkURL c9WitnessUrl =
      (if ("theirRef=T&theirSig=sota".toList : List Char) = [] then none
       else parseQueryString ("theirRef=T&theirSig=sota".toList).asString) :=
  (parse_query_is_second_segment c9WitnessUrl (by decide)).1
    "qso".toList "theirRef=T&theirSig=sota".toList ["junk".toList] (by decide)

/-- Valid URL with an unparsable time parameter. -/
def c10WitnessUrl : String :=
  "com.ham2k.polo://qso?theirRef=A&theirSig=sota&time=abc"

/-- Parse result of c10WitnessUrl. -/
def c10WitnessParams : ParsedLinkParams :=
  { myRef := none, mySig := none, theirRef := some "A", theirSig := some "sota",
    freq := none, mode := none, time := some JsNumber.nan, myCall := none,
    theirCall := none }

/-- C10 witness: time equal to abc is accepted and lands as NaN. -/
theorem parse_time_nan_witness : c10WitnessParams.time = some JsNumber.nan :=
  parse_time_nan c10WitnessUrl c10WitnessParams "abc" (by decide) (by decide)
    (by decide) (by decide)

/-- Build input with only the their pair populated. -/
def c1BuildInput : BuildParams :=
  { theirRef := some "TEST", theirSig := some "pota", freq := none, mode := none,
    time := none, myCall := none, theirCall := none }

/-- C1 witness: the refs entry uses the hunting tag pota, not the
activation tag potaActivation, and carries theirRef verbatim. -/
theorem build_refs_witness :
    (buildSuggestedQSO testBandForFrequency testModeForFrequency 0
        c1BuildInput).refs = some [{ type := some "pota", ref := "TEST" }] :=
  (build_refs_iff_their_pair testBandForFrequency testModeForFrequency 0
    c1BuildInput).2 "TEST" "pota" rfl rfl (by decide) (by decide)

/-- Build input with both an explicit mode and a frequency whose mode
lookup disagrees with it. -/
def c5BuildInput : BuildParams :=
  { theirRef := some "TEST", theirSig := some "sota", freq := some 14285000,
    mode := some "CW", time := none, myCall := none, theirCall := none }

/-- C5 witness: the explicit CW wins although the lookup at 14285000
would say SSB. -/
theorem build_mode_explicit_witness :
    (buildSuggestedQSO testBandForFrequency testModeForFrequency 0
        c5BuildInput).mode = some "CW" :=
  build_mode_explicit_wins testBandForFrequency testModeForFrequency 0
    c5BuildInput "CW" rfl (by decide)

/-- Build input with a frequency and no mode, from the spec example. -/
def c6BuildInput : BuildParams :=
  { theirRef := some "TEST", theirSig := some "pota", freq := some 14035000,
    mode := none, time := none, myCall := none, theirCall := none }

/-- C6 witness: at 14035000 Hz the freq is copied, the band lookup
gives the band and the mode is derived by the mode lookup. -/
theorem build_freq_witness :
    (buildSuggestedQSO testBandForFrequency testModeForFrequency 0
        c6BuildInput).freq = some 14035000 ∧
    (buildSuggestedQSO testBandForFrequency testModeForFrequency 0
        c6BuildInput).band = testBandForFrequency 14035000 ∧
    (c6BuildInput.mode = none →
      (buildSuggestedQSO testBandForFrequency testModeForFrequency 0
          c6BuildInput).mode = testModeForFrequency 14035000) :=
  build_freq_sets_band_and_mode testBandForFrequency testModeForFrequency 0
    c6BuildInput 14035000 rfl (by decide)
